import Mathlib

-- Verification development for the restaurant-management backend.
-- Monetary values are modelled as exact rationals; the machine floats in the
-- source only ever hold short decimal literals and sums/products of them in the
-- claims considered here, so the rational model decides every stated
-- (in)equality.
namespace RestaurantSystem

-- ===========================================================================
-- patterns/builder.py : OrderBuilder
-- ===========================================================================

/-- One line item accumulated by OrderBuilder.add_order_item
(the item dict built in src/patterns/builder.py). -/
structure BuilderOrderItem where
  menu_item_id : String
  quantity : Nat
  unit_price : ℚ
  total_price : ℚ
  customizations : List String
  special_instructions : Option String
  deriving Repr, DecidableEq

/-- OrderBuilder.add_order_item (src/patterns/builder.py): appends an item
whose total_price is quantity * unit_price, with the caller-supplied unit_price. -/
def OrderBuilder.add_order_item (items : List BuilderOrderItem) (menu_item_id : String)
    (quantity : Nat) (unit_price : ℚ) (customizations : List String)
    (special_instructions : Option String) : List BuilderOrderItem :=
  items ++ [{ menu_item_id := menu_item_id
              quantity := quantity
              unit_price := unit_price
              total_price := (quantity : ℚ) * unit_price
              customizations := customizations
              special_instructions := special_instructions }]

/-- The four monetary totals written into the order data by calculate_totals. -/
structure OrderTotals where
  subtotal : ℚ
  tax_amount : ℚ
  discount_amount : ℚ
  total_amount : ℚ
  deriving Repr, DecidableEq

/-- OrderBuilder.calculate_totals (src/patterns/builder.py): subtotal is the sum
of item total_price values, tax is subtotal * tax_rate, and the grand total is
subtotal + tax_amount - discount_amount, with no rounding anywhere. -/
def OrderBuilder.calculate_totals (items : List BuilderOrderItem)
    (tax_rate : ℚ) (discount_amount : ℚ) : OrderTotals :=
  let subtotal := (items.map (fun i => i.total_price)).sum
  let tax_amount := subtotal * tax_rate
  let total_amount := subtotal + tax_amount - discount_amount
  { subtotal := subtotal
    tax_amount := tax_amount
    discount_amount := discount_amount
    total_amount := total_amount }

/-- Chained OrderBuilder.add_order_item calls starting from the builder's
initially empty item list: each request is (menu_item_id, quantity, unit_price). -/
def OrderBuilder.addItems (reqs : List (String × Nat × ℚ)) : List BuilderOrderItem :=
  reqs.foldl (fun acc r => OrderBuilder.add_order_item acc r.1 r.2.1 r.2.2 [] none) []

/-- Modelled from the spec: the round(x, 2) two-decimal rounding that the spec
applies to the final total. The source applies no rounding; this definition
exists only to state the spec's claim against the source computation. -/
def specRound2 (q : ℚ) : ℚ := (round (q * 100) : ℚ) / 100

-- ===========================================================================
-- models/entities.py : Order, OrderItem, MenuItem
-- ===========================================================================

/-- Order entity (src/models/entities.py). Identifiers are strings, as in the
source repositories; timestamps irrelevant to the claims are omitted. -/
structure Order where
  id : String
  order_number : String
  customer_id : Option String
  table_id : Option String
  order_type_id : Option String
  status_id : Option String
  subtotal : ℚ
  tax_amount : ℚ
  discount_amount : ℚ
  total_amount : ℚ
  special_instructions : Option String
  created_by : Option String
  deriving Repr, DecidableEq

/-- OrderItem entity (src/models/entities.py). The status field defaults to
the string value of OrderStatus.PENDING. -/
structure OrderItem where
  id : String
  order_id : String
  menu_item_id : String
  quantity : Nat
  unit_price : ℚ
  total_price : ℚ
  customizations : List String
  special_instructions : Option String
  status : String
  deriving Repr, DecidableEq

/-- MenuItem entity (src/models/entities.py), restricted to the fields the
claims mention: the catalog price and the availability flag. -/
structure MenuItem where
  id : String
  name : String
  price : ℚ
  is_available : Bool
  deriving Repr, DecidableEq

-- ===========================================================================
-- models/schemas.py : order request/response models
-- ===========================================================================

/-- OrderItemCreate request schema (src/models/schemas.py). -/
structure OrderItemCreate where
  menu_item_id : String
  quantity : Nat
  customizations : List String
  special_instructions : Option String
  deriving Repr, DecidableEq

/-- OrderCreate request schema (src/models/schemas.py). -/
structure OrderCreate where
  customer_id : Option String
  table_id : Option String
  order_type : String
  special_instructions : Option String
  items : List OrderItemCreate
  deriving Repr, DecidableEq

/-- OrderResponse schema (src/models/schemas.py); the services always populate
items with the empty list. -/
structure OrderResponse where
  id : String
  order_number : String
  customer_id : Option String
  table_id : Option String
  status : String
  order_type : String
  subtotal : ℚ
  tax_amount : ℚ
  discount_amount : ℚ
  total_amount : ℚ
  special_instructions : Option String
  items : List OrderItem
  deriving Repr, DecidableEq

/-- Field constraints of OrderItemBase (src/models/schemas.py), which
OrderItemResponse inherits: quantity gt 0 le 50, unit_price gt 0,
total_price gt 0. Pydantic enforces them when the response model is built. -/
def orderItemResponseOk (it : OrderItem) : Bool :=
  decide (0 < it.quantity) && decide (it.quantity ≤ 50) &&
  decide ((0 : ℚ) < it.unit_price) && decide ((0 : ℚ) < it.total_price)

-- ===========================================================================
-- repositories/order_repository.py and services/order_service.py
-- ===========================================================================

/-- The persistent order store: the orders and order_items tables. -/
structure OrdersDB where
  orders : List Order
  order_items : List OrderItem
  deriving Repr, DecidableEq

/-- The attribute assignment updated_order.status = status executed at
src/repositories/order_repository.py line 96: Order (src/models/entities.py)
declares no status field and BaseEntity's Config sets no extra policy, so
pydantic raises ValueError on every such assignment; no Order carrying the
requested status is ever produced. -/
def Order.setAttrStatus (o : Order) (status : String) : Except String Order :=
  Except.error "ValueError: Order object has no field status"

/-- OrderRepository.update_status (src/repositories/order_repository.py lines
87-101): writes status_id := null on every row matching the id, maps the
returned row to an Order entity, and then executes the attribute assignment
updated_order.status = status, which raises ValueError (after the NULL write);
the except block re-raises. When no row matches, the update writes nothing and
the function returns None. The result is the store after the call together
with the returned value or the propagated exception. -/
def OrderRepository.update_status (orders : List Order) (order_id : String)
    (status : String) : List Order × Except String (Option Order) :=
  match orders.find? (fun o => o.id == order_id) with
  | none => (orders, Except.ok none)
  | some o =>
      let updated := { o with status_id := none }
      let orders2 := orders.map (fun x => if x.id == order_id then updated else x)
      match Order.setAttrStatus updated status with
      | Except.error e => (orders2, Except.error e)
      | Except.ok withAttr => (orders2, Except.ok (some withAttr))

/-- The Order entity assembled by OrderService.create_order
(src/services/order_service.py lines 99-112): all four monetary fields are
written as 0.0 and both order_type_id and status_id as null, regardless of the
request. fresh_id stands for uuid4() and now for the Bogota timestamp. -/
def OrderService.createOrderEntity (order : OrderCreate) (fresh_id : String)
    (now : Nat) : Order :=
  { id := fresh_id
    order_number := "ORD-" ++ toString now
    customer_id := order.customer_id
    table_id := order.table_id
    order_type_id := none
    status_id := none
    subtotal := 0
    tax_amount := 0
    discount_amount := 0
    total_amount := 0
    special_instructions := order.special_instructions
    created_by := none }

/-- OrderService.create_order (src/services/order_service.py): inserts the
entity above and answers with a response whose status and order_type are the
hardcoded strings "pending" and "dine_in". -/
def OrderService.create_order (db : OrdersDB) (order : OrderCreate)
    (fresh_id : String) (now : Nat) : OrdersDB × OrderResponse :=
  let created_order := OrderService.createOrderEntity order fresh_id now
  ({ db with orders := db.orders ++ [created_order] },
   { id := created_order.id
     order_number := created_order.order_number
     customer_id := created_order.customer_id
     table_id := created_order.table_id
     status := "pending"
     order_type := "dine_in"
     subtotal := created_order.subtotal
     tax_amount := created_order.tax_amount
     discount_amount := created_order.discount_amount
     total_amount := created_order.total_amount
     special_instructions := created_order.special_instructions
     items := [] })

/-- OrderService.get_order (src/services/order_service.py): looks the order up
and builds the response with the hardcoded status "pending" and order_type
"dine_in", whatever is stored. -/
def OrderService.get_order (db : OrdersDB) (order_id : String) : Option OrderResponse :=
  (db.orders.find? (fun o => o.id == order_id)).map (fun order =>
    { id := order.id
      order_number := order.order_number
      customer_id := order.customer_id
      table_id := order.table_id
      status := "pending"
      order_type := "dine_in"
      subtotal := order.subtotal
      tax_amount := order.tax_amount
      discount_amount := order.discount_amount
      total_amount := order.total_amount
      special_instructions := order.special_instructions
      items := [] })

/-- OrderService.get_orders without filters (src/services/order_service.py):
maps every stored order to a response with the same hardcoded status and
order_type strings. -/
def OrderService.get_orders (db : OrdersDB) : List OrderResponse :=
  db.orders.map (fun order =>
    { id := order.id
      order_number := order.order_number
      customer_id := order.customer_id
      table_id := order.table_id
      status := "pending"
      order_type := "dine_in"
      subtotal := order.subtotal
      tax_amount := order.tax_amount
      discount_amount := order.discount_amount
      total_amount := order.total_amount
      special_instructions := order.special_instructions
      items := [] })

/-- Observable side effects of an order-status update; entering the preparing
state is where the spec expects a kitchen ticket to be produced. -/
inductive SideEffect where
  | kitchenTicket (order_id : String)
  deriving Repr, DecidableEq

/-- OrderService.update_order_status (src/services/order_service.py lines
237-264): delegates to the repository with no transition validation of any
kind and performs no kitchen call whatsoever (empty side-effect list). The
repository's ValueError propagates through the service's except/raise, so the
response construction below (source lines 246-261, echoing the requested
status) is dead code: for an existing order the caller always sees the
exception (the route answers 500), and for an unknown id it sees None (404). -/
def OrderService.update_order_status (db : OrdersDB) (order_id : String)
    (new_status : String) :
    OrdersDB × Except String (Option OrderResponse) × List SideEffect :=
  match OrderRepository.update_status db.orders order_id new_status with
  | (orders2, Except.error e) => ({ db with orders := orders2 }, Except.error e, [])
  | (orders2, Except.ok none) => ({ db with orders := orders2 }, Except.ok none, [])
  | (orders2, Except.ok (some updated_order)) =>
      ({ db with orders := orders2 },
       Except.ok (some
        { id := updated_order.id
          order_number := updated_order.order_number
          customer_id := updated_order.customer_id
          table_id := updated_order.table_id
          status := new_status
          order_type := "dine_in"
          subtotal := updated_order.subtotal
          tax_amount := updated_order.tax_amount
          discount_amount := updated_order.discount_amount
          total_amount := updated_order.total_amount
          special_instructions := updated_order.special_instructions
          items := [] }),
       [])

/-- OrderService.add_order_item (src/services/order_service.py lines 180-211):
stores the item with unit_price = 0.0 and total_price = 0.0 without consulting
any menu catalog, then builds OrderItemResponse, whose pydantic validation
(unit_price gt 0) necessarily fails on the zero prices. -/
def OrderService.add_order_item (db : OrdersDB) (order_id : String)
    (item : OrderItemCreate) (fresh_id : String) :
    OrdersDB × OrderItem × Except String OrderItem :=
  let item_entity : OrderItem :=
    { id := fresh_id
      order_id := order_id
      menu_item_id := item.menu_item_id
      quantity := item.quantity
      unit_price := 0
      total_price := 0
      customizations := []
      special_instructions := item.special_instructions
      status := "pending" }
  let db2 := { db with order_items := db.order_items ++ [item_entity] }
  if orderItemResponseOk item_entity then (db2, item_entity, Except.ok item_entity)
  else (db2, item_entity, Except.error "ValidationError")

/-- Modelled from the spec: the allowed order-status transition table of
section 4.2 (pending to preparing or cancelled, preparing to ready or
cancelled, ready to served). The source contains no such table; this
definition exists only to state the spec's claims. -/
def specAllowedTransition (fromStatus toStatus : String) : Bool :=
  (fromStatus == "pending" && (toStatus == "preparing" || toStatus == "cancelled")) ||
  (fromStatus == "preparing" && (toStatus == "ready" || toStatus == "cancelled")) ||
  (fromStatus == "ready" && toStatus == "served")

-- ===========================================================================
-- models/entities.py : Invoice, and services/billing_service.py,
-- repositories/billing_repository.py
-- ===========================================================================

/-- InvoiceStatus enum (src/models/entities.py). -/
inductive InvoiceStatus where
  | pending
  | paid
  | cancelled
  | refunded
  deriving Repr, DecidableEq

/-- The string value of each InvoiceStatus member, as stored in the database. -/
def InvoiceStatus.value : InvoiceStatus → String
  | .pending => "pending"
  | .paid => "paid"
  | .cancelled => "cancelled"
  | .refunded => "refunded"

/-- Invoice entity (src/models/entities.py); issued_at and paid_at are
abstract timestamps. -/
structure Invoice where
  id : String
  invoice_number : String
  order_id : Option String
  customer_id : Option String
  subtotal : ℚ
  tax_amount : ℚ
  discount_amount : ℚ
  total_amount : ℚ
  status : InvoiceStatus
  issued_at : Nat
  paid_at : Option Nat
  deriving Repr, DecidableEq

/-- InvoiceCreate request schema (src/models/schemas.py). -/
structure InvoiceCreate where
  order_id : Option String
  customer_id : Option String
  subtotal : ℚ
  tax_amount : ℚ
  discount_amount : ℚ
  total_amount : ℚ
  deriving Repr, DecidableEq

/-- The invoices table. -/
abbrev BillingDB := List Invoice

/-- BillingRepository.update_invoice_payment_status
(src/repositories/billing_repository.py lines 119-139): writes the requested
status onto the matching row and adds paid_at := now exactly when the status
string (the enum's value, as the service passes it) is "paid"; any other
status leaves the stored paid_at untouched. No transition check of any kind.
Returns none when no row matches. -/
def BillingRepository.update_invoice_payment_status (db : BillingDB)
    (invoice_id : String) (status : InvoiceStatus) (now : Nat) :
    Option (BillingDB × Invoice) :=
  match db.find? (fun i => i.id == invoice_id) with
  | none => none
  | some inv =>
      let updated :=
        if status.value == "paid" then
          { inv with status := status, paid_at := some now }
        else
          { inv with status := status }
      some (db.map (fun i => if i.id == invoice_id then updated else i), updated)

/-- Python's str.lower applied characterwise (String.toLower stated over the
character list so that it computes by reduction). -/
def pyLower (s : String) : String := String.mk (s.data.map Char.toLower)

/-- The status_mapping dict of BillingService.update_invoice_payment_status
(src/services/billing_service.py lines 153-160): dictionary get with default
InvoiceStatus.PENDING, applied to the lowercased request string. -/
def BillingService.status_mapping (status : String) : InvoiceStatus :=
  match pyLower status with
  | "pending" => InvoiceStatus.pending
  | "paid" => InvoiceStatus.paid
  | "cancelled" => InvoiceStatus.cancelled
  | "refunded" => InvoiceStatus.refunded
  | _ => InvoiceStatus.pending

/-- BillingService.update_invoice_payment_status (src/services/billing_service.py
lines 146-193): maps the string to an enum member and forwards only that enum
value to the repository. (The source also builds a local update_data dict with
a paid_at value here, but never passes it on, and ignores payment_method.) -/
def BillingService.update_invoice_payment_status (db : BillingDB)
    (invoice_id : String) (status : String) (payment_method : String)
    (now : Nat) : Option (BillingDB × Invoice) :=
  let invoice_status := BillingService.status_mapping status
  BillingRepository.update_invoice_payment_status db invoice_id invoice_status now

/-- BillingService.create_invoice (src/services/billing_service.py lines
93-144): builds the invoice with status PENDING, paid_at null, issued_at now,
and the request's amounts, and inserts it. -/
def BillingService.create_invoice (db : BillingDB) (invoice : InvoiceCreate)
    (fresh_id : String) (now : Nat) : BillingDB × Invoice :=
  let invoice_entity : Invoice :=
    { id := fresh_id
      invoice_number := "INV-" ++ toString now
      order_id := invoice.order_id
      customer_id := invoice.customer_id
      subtotal := invoice.subtotal
      tax_amount := invoice.tax_amount
      discount_amount := invoice.discount_amount
      total_amount := invoice.total_amount
      status := InvoiceStatus.pending
      issued_at := now
      paid_at := none }
  (db ++ [invoice_entity], invoice_entity)

/-- A sequence of PATCH /billing/id/payment requests applied through the
service; each pair is (payment_status, timestamp). An update whose id finds no
row leaves the store unchanged (the route answers 404). -/
def applyPaymentUpdates (db : BillingDB) (invoice_id : String)
    (reqs : List (String × Nat)) : BillingDB :=
  reqs.foldl (fun d r =>
    match BillingService.update_invoice_payment_status d invoice_id r.1 "cash" r.2 with
    | some (d2, _) => d2
    | none => d) db

-- ===========================================================================
-- services/inventory_service.py and api/routes/inventory.py
-- ===========================================================================

/-- InventoryItemResponse schema (src/models/schemas.py), restricted to the
fields the claims mention. -/
structure InventoryItemResponse where
  id : String
  name : String
  category : String
  current_stock : Int
  min_stock : Int
  max_stock : Int
  unit_price : ℚ
  deriving Repr, DecidableEq

/-- InventoryMovement entity (src/models/entities.py). -/
structure InventoryMovement where
  ingredient_id : String
  movement_type : String
  quantity : ℚ
  reason : Option String
  deriving Repr, DecidableEq

/-- InventoryService.update_stock (src/services/inventory_service.py lines
141-162): returns a response whose current_stock IS the given quantity — the
stored stock is never read, no clamping arithmetic is applied, and no
InventoryMovement record is written (second component). -/
def InventoryService.update_stock (item_id : String) (quantity : Int) :
    InventoryItemResponse × List InventoryMovement :=
  ({ id := item_id
     name := "Tomates"
     category := "Vegetales"
     current_stock := quantity
     min_stock := 10
     max_stock := 100
     unit_price := 5 / 2 }, [])

/-- InventoryService.get_inventory_item (src/services/inventory_service.py
lines 63-84): answers the hardcoded sample item with current_stock 50. -/
def InventoryService.get_inventory_item (item_id : String) : InventoryItemResponse :=
  { id := item_id
    name := "Tomates"
    category := "Vegetales"
    current_stock := 50
    min_stock := 10
    max_stock := 100
    unit_price := 5 / 2 }

/-- PATCH /inventory/id/stock (src/api/routes/inventory.py lines 170-201):
the quantity query parameter is declared ge=0, so FastAPI rejects a negative
quantity with a 422 validation error before the service runs. -/
def InventoryRoutes.update_stock (item_id : String) (quantity : Int) :
    Except Nat InventoryItemResponse :=
  if quantity < 0 then Except.error 422
  else Except.ok (InventoryService.update_stock item_id quantity).1

-- ===========================================================================
-- Concrete sample data for witnesses and counterexamples
-- ===========================================================================

/-- A stored order whose current status is pending (status_id "pending"). -/
def sampleOrder : Order :=
  { id := "o1"
    order_number := "ORD-1"
    customer_id := some "c1"
    table_id := none
    order_type_id := some "takeaway"
    status_id := some "pending"
    subtotal := 10
    tax_amount := 19 / 10
    discount_amount := 0
    total_amount := 119 / 10
    special_instructions := none
    created_by := none }

/-- An order store holding just sampleOrder. -/
def sampleDB : OrdersDB := { orders := [sampleOrder], order_items := [] }

/-- An order-creation request with one line item of quantity 2. -/
def sampleOrderCreate : OrderCreate :=
  { customer_id := some "c1"
    table_id := none
    order_type := "takeaway"
    special_instructions := none
    items := [{ menu_item_id := "m1"
                quantity := 2
                customizations := []
                special_instructions := none }] }

/-- An available catalog entry priced 12.99. -/
def sampleMenuItem : MenuItem :=
  { id := "m1", name := "Ensalada Cesar", price := 1299 / 100, is_available := true }

/-- A line-item request referencing sampleMenuItem with quantity 2. -/
def sampleItemReq : OrderItemCreate :=
  { menu_item_id := "m1", quantity := 2, customizations := [], special_instructions := none }

/-- An invoice in the pending state with no payment timestamp. -/
def samplePendingInvoice : Invoice :=
  { id := "inv1"
    invoice_number := "INV-1"
    order_id := some "o1"
    customer_id := some "c1"
    subtotal := 4497 / 100
    tax_amount := 85443 / 10000
    discount_amount := 0
    total_amount := 535143 / 10000
    status := InvoiceStatus.pending
    issued_at := 1
    paid_at := none }

/-- An invoice already paid (paid_at set). -/
def samplePaidInvoice : Invoice :=
  { samplePendingInvoice with id := "inv2", status := InvoiceStatus.paid, paid_at := some 5 }

/-- An invoice in the refunded state. -/
def sampleRefundedInvoice : Invoice :=
  { samplePendingInvoice with id := "inv3", status := InvoiceStatus.refunded }

/-- An invoice-creation request mirroring the spec's worked scenario amounts. -/
def sampleInvoiceCreate : InvoiceCreate :=
  { order_id := some "o1"
    customer_id := some "c1"
    subtotal := 4497 / 100
    tax_amount := 85443 / 10000
    discount_amount := 0
    total_amount := 535143 / 10000 }

/-- The totals the builder computes on the spec's worked scenario: two items at
12.99 and one at 18.99, tax rate 0.19, no discount. -/
def c1ScenarioTotals : OrderTotals :=
  OrderBuilder.calculate_totals
    (OrderBuilder.addItems [("m1", 2, 1299 / 100), ("m2", 1, 1899 / 100)])
    (19 / 100) 0

-- ===========================================================================
-- Helper lemmas (shared infrastructure, not claim theorems)
-- ===========================================================================

/-- Replacing every element matched by p with a value that itself matches p
makes find? return that value, whenever find? succeeded before. -/
lemma find?_map_replace {α : Type} (p : α → Bool) (upd : α) (hupd : p upd = true) :
    ∀ (l : List α) (o : α), l.find? p = some o →
      (l.map (fun x => if p x then upd else x)).find? p = some upd := by
  intro l
  induction l with
  | nil => intro o h; simp [List.find?] at h
  | cons a t ih =>
      intro o h
      by_cases hpa : p a = true
      · simp only [List.map_cons, hpa, if_true]
        rw [List.find?_cons_of_pos _ hupd]
      · have hpa2 : p a = false := by simpa using hpa
        rw [List.find?_cons_of_neg _ (by simp [hpa2])] at h
        simp only [List.map_cons, hpa2, if_false, Bool.false_eq_true]
        rw [List.find?_cons_of_neg _ (by simp [hpa2])]
        exact ih o h

/-- The replace-matching-elements map is idempotent when the replacement
itself matches. -/
lemma map_replace_idem {α : Type} (p : α → Bool) (upd : α) (hupd : p upd = true)
    (l : List α) :
    (l.map (fun x => if p x then upd else x)).map (fun x => if p x then upd else x)
      = l.map (fun x => if p x then upd else x) := by
  induction l with
  | nil => rfl
  | cons a t ih =>
      by_cases hpa : p a = true
      · simp [hpa, hupd, ih]
      · have hpa2 : p a = false := by simpa using hpa
        simp [hpa2, ih]

/-- The total_price column of the items accumulated by chained
add_order_item calls, for an arbitrary starting accumulator. -/
lemma addItems_go (reqs : List (String × Nat × ℚ)) :
    ∀ acc : List BuilderOrderItem,
      ((reqs.foldl (fun a r => OrderBuilder.add_order_item a r.1 r.2.1 r.2.2 [] none) acc).map
          (fun i => i.total_price))
        = acc.map (fun i => i.total_price) ++ reqs.map (fun r => (r.2.1 : ℚ) * r.2.2) := by
  induction reqs with
  | nil => intro acc; simp
  | cons r rest ih =>
      intro acc
      rw [List.foldl_cons, ih]
      simp [OrderBuilder.add_order_item]

/-- The enum's database string is "paid" exactly for the paid member. -/
lemma invoiceStatus_value_paid (st : InvoiceStatus) :
    (st.value == "paid") = (st == InvoiceStatus.paid) := by
  cases st <;> rfl

/-- One payment-status update on a one-invoice store whose invoice carries the
requested id: the row is found and rewritten, with paid_at refreshed exactly
when the mapped status is paid. -/
lemma paymentUpdate_singleton_step (fid : String) (inv : Invoice) (h : inv.id = fid)
    (s pm : String) (now : Nat) :
    BillingService.update_invoice_payment_status [inv] fid s pm now =
      (if BillingService.status_mapping s = InvoiceStatus.paid then
        some ([{ inv with status := BillingService.status_mapping s, paid_at := some now }],
              { inv with status := BillingService.status_mapping s, paid_at := some now })
      else
        some ([{ inv with status := BillingService.status_mapping s }],
              { inv with status := BillingService.status_mapping s })) := by
  have hfind : ([inv].find? (fun i => i.id == fid)) = some inv := by
    simp [List.find?, h]
  by_cases hst : BillingService.status_mapping s = InvoiceStatus.paid
  · simp [BillingService.update_invoice_payment_status,
      BillingRepository.update_invoice_payment_status, hfind,
      invoiceStatus_value_paid, hst, h]
  · simp [BillingService.update_invoice_payment_status,
      BillingRepository.update_invoice_payment_status, hfind,
      invoiceStatus_value_paid, hst, h]

/-- Unfolding one request of a payment-update trace. -/
lemma applyPaymentUpdates_cons (db : BillingDB) (invoice_id : String)
    (r : String × Nat) (rest : List (String × Nat)) :
    applyPaymentUpdates db invoice_id (r :: rest)
      = applyPaymentUpdates
          (match BillingService.update_invoice_payment_status db invoice_id r.1 "cash" r.2 with
           | some (d2, _) => d2
           | none => db) invoice_id rest := rfl

/-- Shape of a payment-update trace applied to a one-invoice store: the store
stays a singleton with the same id, and paid_at ends up set exactly when some
request in the trace mapped to the paid status or it was set at the start. -/
lemma applyPaymentUpdates_singleton (fid : String) (reqs : List (String × Nat)) :
    ∀ inv : Invoice, inv.id = fid →
      ∃ inv2, applyPaymentUpdates [inv] fid reqs = [inv2] ∧ inv2.id = fid ∧
        inv2.paid_at.isSome
          = (reqs.any (fun r => BillingService.status_mapping r.1 == InvoiceStatus.paid)
             || inv.paid_at.isSome) := by
  induction reqs with
  | nil => intro inv h; exact ⟨inv, rfl, h, by simp [applyPaymentUpdates]⟩
  | cons r rest ih =>
      intro inv h
      rw [applyPaymentUpdates_cons, paymentUpdate_singleton_step fid inv h r.1 "cash" r.2]
      by_cases hst : BillingService.status_mapping r.1 = InvoiceStatus.paid
      · rw [if_pos hst]
        obtain ⟨inv2, h1, h2, h3⟩ :=
          ih { inv with status := BillingService.status_mapping r.1, paid_at := some r.2 } h
        refine ⟨inv2, h1, h2, ?_⟩
        rw [h3]
        simp [hst]
      · rw [if_neg hst]
        obtain ⟨inv2, h1, h2, h3⟩ :=
          ih { inv with status := BillingService.status_mapping r.1 } h
        refine ⟨inv2, h1, h2, ?_⟩
        rw [h3]
        have hf : (BillingService.status_mapping r.1 == InvoiceStatus.paid) = false := by
          simpa using hst
        simp [hf, Bool.or_assoc]

/-- update_order_status on an id with no matching row: the store is unchanged
and the service returns None (the route answers 404). -/
lemma update_order_status_none (db : OrdersDB) (oid s : String)
    (h : db.orders.find? (fun x => x.id == oid) = none) :
    OrderService.update_order_status db oid s = (db, Except.ok none, []) := by
  simp [OrderService.update_order_status, OrderRepository.update_status, h]

/-- update_order_status on an existing order: the stored status_id is nulled
by the write, then the pydantic ValueError from the repository's attribute
assignment propagates (the route answers 500); no response is produced and
the side-effect list is empty. -/
lemma update_order_status_found (db : OrdersDB) (oid s : String) (o : Order)
    (h : db.orders.find? (fun x => x.id == oid) = some o) :
    OrderService.update_order_status db oid s =
      ({ db with
          orders := db.orders.map
            (fun x => if x.id == oid then { o with status_id := none } else x) },
       Except.error "ValueError: Order object has no field status", []) := by
  simp [OrderService.update_order_status, OrderRepository.update_status,
    Order.setAttrStatus, h]

-- ===========================================================================
-- Claim theorems
-- ===========================================================================

/-- C1 (counterexample): on the spec's own worked scenario — two items at
12.99 and one at 18.99, tax rate 0.19, discount 0 — the builder writes
total_amount = 53.5143, while round(subtotal + tax_amount − discount_amount, 2)
is 53.51; the source applies no rounding, so the claimed equation
total_amount = round(subtotal + tax_amount − discount_amount, 2) is false. -/
theorem c1_totals_counterexample :
    c1ScenarioTotals.subtotal = 4497 / 100 ∧
    c1ScenarioTotals.total_amount = 535143 / 10000 ∧
    specRound2 (c1ScenarioTotals.subtotal + c1ScenarioTotals.tax_amount
      - c1ScenarioTotals.discount_amount) = 5351 / 100 ∧
    c1ScenarioTotals.total_amount
      ≠ specRound2 (c1ScenarioTotals.subtotal + c1ScenarioTotals.tax_amount
          - c1ScenarioTotals.discount_amount) := by
  refine ⟨?_, ?_, ?_, ?_⟩ <;>
    norm_num [c1ScenarioTotals, OrderBuilder.addItems, OrderBuilder.add_order_item,
      OrderBuilder.calculate_totals, specRound2, round_eq]

/-- C1 (amended): every order-writing operation establishes
subtotal = Σ item.total_price and total_amount = subtotal + tax_amount −
discount_amount EXACTLY, with no 2-decimal rounding anywhere: the builder's
calculate_totals computes these equations over its accumulated items (whose
total_price is quantity × unit_price), and create_order writes all four
amounts as 0, which satisfies the same equations trivially. -/
theorem c1_totals_amended (items : List BuilderOrderItem) (tax_rate discount : ℚ)
    (reqs : List (String × Nat × ℚ)) (req : OrderCreate) (fid : String) (now : Nat) :
    ((OrderBuilder.calculate_totals items tax_rate discount).subtotal
        = (items.map (fun i => i.total_price)).sum ∧
     (OrderBuilder.calculate_totals items tax_rate discount).tax_amount
        = (OrderBuilder.calculate_totals items tax_rate discount).subtotal * tax_rate ∧
     (OrderBuilder.calculate_totals items tax_rate discount).total_amount
        = (OrderBuilder.calculate_totals items tax_rate discount).subtotal
          + (OrderBuilder.calculate_totals items tax_rate discount).tax_amount
          - (OrderBuilder.calculate_totals items tax_rate discount).discount_amount) ∧
    ((OrderBuilder.calculate_totals (OrderBuilder.addItems reqs) tax_rate discount).subtotal
        = (reqs.map (fun r => (r.2.1 : ℚ) * r.2.2)).sum) ∧
    ((OrderService.createOrderEntity req fid now).subtotal = 0 ∧
     (OrderService.createOrderEntity req fid now).tax_amount = 0 ∧
     (OrderService.createOrderEntity req fid now).discount_amount = 0 ∧
     (OrderService.createOrderEntity req fid now).total_amount = 0 ∧
     (OrderService.createOrderEntity req fid now).total_amount
        = (OrderService.createOrderEntity req fid now).subtotal
          + (OrderService.createOrderEntity req fid now).tax_amount
          - (OrderService.createOrderEntity req fid now).discount_amount) := by
  refine ⟨⟨rfl, rfl, rfl⟩, ?_, rfl, rfl, rfl, rfl, by norm_num [OrderService.createOrderEntity]⟩
  show ((OrderBuilder.addItems reqs).map (fun i => i.total_price)).sum = _
  rw [OrderBuilder.addItems, addItems_go reqs []]
  simp

/-- C7 (counterexample): the only stock-update path replaces the stock with
the given quantity instead of computing max(0, current + delta) — the item
that get_inventory_item reports with current_stock 50 comes back from
update_stock with current_stock 3, not max(0, 50 + 3) = 53 — and no
InventoryMovement record is appended. -/
theorem c7_stock_counterexample :
    (InventoryService.get_inventory_item "123e4567").current_stock = 50 ∧
    (InventoryService.update_stock "123e4567" 3).1.current_stock = 3 ∧
    max 0 (50 + 3) ≠ (3 : Int) ∧
    (InventoryService.update_stock "123e4567" 3).2 = [] := by
  refine ⟨rfl, rfl, by decide, rfl⟩

/-- C7 (amended): the stock-update operation replaces current_stock with the
request's quantity; the HTTP layer rejects negative quantities with a 422, so
every accepted update reports a non-negative current_stock (the zero floor
holds for every sequence of updates because each update is absolute), and no
InventoryMovement record is ever written. -/
theorem c7_stock_amended (item_id : String) (q : Int) :
    ((InventoryService.update_stock item_id q).2 = []) ∧
    (q < 0 → InventoryRoutes.update_stock item_id q = Except.error 422) ∧
    (∀ r, InventoryRoutes.update_stock item_id q = Except.ok r →
      r.current_stock = q ∧ 0 ≤ r.current_stock) := by
  refine ⟨rfl, ?_, ?_⟩
  · intro hneg
    simp [InventoryRoutes.update_stock, hneg]
  · intro r hr
    rw [InventoryRoutes.update_stock] at hr
    by_cases hneg : q < 0
    · rw [if_pos hneg] at hr
      exact absurd hr (by simp)
    · rw [if_neg hneg] at hr
      have hr2 : (InventoryService.update_stock item_id q).1 = r := by
        exact Except.ok.inj hr
      constructor
      · rw [← hr2]; rfl
      · rw [← hr2]
        show (0 : Int) ≤ q
        exact le_of_not_lt hneg

/-- C7 (witness): an accepted update with quantity 3 reports stock 3 ≥ 0, and
a request with quantity −1 is rejected at the HTTP layer. -/
theorem c7_stock_witness :
    ((InventoryService.update_stock "i1" 3).1.current_stock = 3 ∧
     0 ≤ (InventoryService.update_stock "i1" 3).1.current_stock) ∧
    InventoryRoutes.update_stock "i1" (-1) = Except.error 422 :=
  ⟨(c7_stock_amended "i1" 3).2.2 _ rfl, (c7_stock_amended "i1" (-1)).2.1 (by decide)⟩

/-- C10: the HTTP layer rejects a negative stock quantity with a 422
validation error, and an accepted update returns an item whose current_stock
is exactly the requested quantity — replacement, not increment. -/
theorem c10_stock_replacement (item_id : String) (q : Int) :
    (q < 0 → InventoryRoutes.update_stock item_id q = Except.error 422) ∧
    (0 ≤ q → InventoryRoutes.update_stock item_id q
        = Except.ok ((InventoryService.update_stock item_id q).1)) ∧
    (InventoryService.update_stock item_id q).1.current_stock = q := by
  refine ⟨?_, ?_, rfl⟩
  · intro hneg
    simp [InventoryRoutes.update_stock, hneg]
  · intro hpos
    simp [InventoryRoutes.update_stock, not_lt.mpr hpos]

/-- C10 (witness): quantity 7 is accepted and reported back verbatim;
quantity −2 is rejected with a 422. -/
theorem c10_stock_witness :
    InventoryRoutes.update_stock "x" 7
      = Except.ok ((InventoryService.update_stock "x" 7).1) ∧
    (InventoryService.update_stock "x" 7).1.current_stock = 7 ∧
    InventoryRoutes.update_stock "x" (-2) = Except.error 422 :=
  ⟨(c10_stock_replacement "x" 7).2.1 (by decide),
   (c10_stock_replacement "x" 7).2.2,
   (c10_stock_replacement "x" (-2)).1 (by decide)⟩

/-- C2 (counterexample): pending → served is outside the spec's allowed
table, yet the transition request does not raise InvalidTransition and does
not leave the stored status unchanged: the write nulls the stored status_id
(from "pending" to null) and the operation then raises pydantic's ValueError
from the repository's undeclared-attribute assignment. -/
theorem c2_transition_counterexample :
    specAllowedTransition "pending" "served" = false ∧
    sampleOrder.status_id = some "pending" ∧
    (OrderService.update_order_status sampleDB "o1" "served").2.1
      = Except.error "ValueError: Order object has no field status" ∧
    (OrderService.update_order_status sampleDB "o1" "served").1.orders.map
        (fun o => o.status_id) = [none] := by
  refine ⟨rfl, rfl, rfl, rfl⟩

/-- C2 (amended): no transition validation exists — for every stored order
and every requested target status whatsoever, update_order_status first
overwrites the stored status_id with null and then propagates the pydantic
ValueError raised by the repository's assignment of the undeclared status
attribute (the route answers 500); InvalidTransition is never raised and no
side effect occurs. -/
theorem c2_transition_amended (db : OrdersDB) (oid s : String) (o : Order)
    (h : db.orders.find? (fun x => x.id == oid) = some o) :
    OrderService.update_order_status db oid s =
      ({ db with
          orders := db.orders.map
            (fun x => if x.id == oid then { o with status_id := none } else x) },
       Except.error "ValueError: Order object has no field status", []) :=
  update_order_status_found db oid s o h

/-- C2 (witness): the amended statement at the sample store, requesting the
disallowed target served on a pending order: the stored status_id is nulled
and the ValueError propagates. -/
theorem c2_transition_witness :
    sampleDB.orders.find? (fun x => x.id == "o1") = some sampleOrder ∧
    (OrderService.update_order_status sampleDB "o1" "served").2.1
      = Except.error "ValueError: Order object has no field status" := by
  refine ⟨rfl, ?_⟩
  rw [c2_transition_amended sampleDB "o1" "served" sampleOrder rfl]

/-- C8: requesting the same transition twice yields the same end state as
requesting it once — the store after the second request equals the store
after the first, and the outcome is also identical (the same propagated
ValueError for an existing order, the same None for an unknown id; no request
ever yields a successful response) — and the side-effect list of both
requests is empty: the source performs no kitchen call on entering preparing,
so no kitchen ticket is duplicated. -/
theorem c8_idempotent_no_duplicate (db : OrdersDB) (oid fromStatus s : String)
    (hvalid : specAllowedTransition fromStatus s = true) :
    (OrderService.update_order_status
        (OrderService.update_order_status db oid s).1 oid s).1
      = (OrderService.update_order_status db oid s).1 ∧
    (OrderService.update_order_status
        (OrderService.update_order_status db oid s).1 oid s).2.1
      = (OrderService.update_order_status db oid s).2.1 ∧
    (OrderService.update_order_status db oid s).2.2 = [] ∧
    (OrderService.update_order_status
        (OrderService.update_order_status db oid s).1 oid s).2.2 = [] := by
  cases hfind : db.orders.find? (fun x => x.id == oid) with
  | none =>
      simp [update_order_status_none db oid s hfind]
  | some o =>
      have hpo := List.find?_some hfind
      have hpupd : (({ o with status_id := none } : Order).id == oid) = true := hpo
      have hfind2 := find?_map_replace (fun x => x.id == oid) _ hpupd db.orders o hfind
      have hidem := map_replace_idem (fun x => x.id == oid) _ hpupd db.orders
      rw [update_order_status_found db oid s o hfind]
      dsimp only
      rw [update_order_status_found _ oid s _ hfind2]
      refine ⟨?_, rfl, rfl, rfl⟩
      exact congrArg (fun l => ({ db with orders := l } : OrdersDB)) hidem

/-- C8 (witness): the idempotence statement at the sample store for the valid
transition pending → preparing, with the validity hypothesis discharged
concretely. -/
theorem c8_witness :
    specAllowedTransition "pending" "preparing" = true ∧
    ((OrderService.update_order_status
        (OrderService.update_order_status sampleDB "o1" "preparing").1 "o1" "preparing").1
      = (OrderService.update_order_status sampleDB "o1" "preparing").1 ∧
     (OrderService.update_order_status
        (OrderService.update_order_status sampleDB "o1" "preparing").1 "o1" "preparing").2.1
      = (OrderService.update_order_status sampleDB "o1" "preparing").2.1 ∧
     (OrderService.update_order_status sampleDB "o1" "preparing").2.2 = [] ∧
     (OrderService.update_order_status
        (OrderService.update_order_status sampleDB "o1" "preparing").1 "o1" "preparing").2.2
      = []) :=
  ⟨rfl, c8_idempotent_no_duplicate sampleDB "o1" "pending" "preparing" rfl⟩

/-- C9: the order persisted by create_order carries subtotal, tax_amount,
discount_amount and total_amount all equal to 0 whatever the request contains,
and every response produced by create_order, get_order and get_orders reports
status "pending" and order_type "dine_in" regardless of the stored state. -/
theorem c9_hardcoded_fields (db : OrdersDB) (req : OrderCreate) (fid oid : String)
    (now : Nat) :
    ((OrderService.createOrderEntity req fid now).subtotal = 0 ∧
     (OrderService.createOrderEntity req fid now).tax_amount = 0 ∧
     (OrderService.createOrderEntity req fid now).discount_amount = 0 ∧
     (OrderService.createOrderEntity req fid now).total_amount = 0) ∧
    ((OrderService.create_order db req fid now).1.orders
        = db.orders ++ [OrderService.createOrderEntity req fid now]) ∧
    ((OrderService.create_order db req fid now).2.status = "pending" ∧
     (OrderService.create_order db req fid now).2.order_type = "dine_in") ∧
    ((OrderService.get_order db oid).map (fun r => (r.status, r.order_type))
        = (OrderService.get_order db oid).map (fun _ => ("pending", "dine_in"))) ∧
    ((OrderService.get_orders db).map (fun r => (r.status, r.order_type))
        = (OrderService.get_orders db).map (fun _ => ("pending", "dine_in"))) := by
  refine ⟨⟨rfl, rfl, rfl, rfl⟩, rfl, ⟨rfl, rfl⟩, ?_, ?_⟩
  · rw [OrderService.get_order, Option.map_map, Option.map_map]
    rfl
  · rw [OrderService.get_orders, List.map_map, List.map_map]
    rfl

/-- C3 (counterexample): with an available catalog entry of id "m1" priced
12.99 and a request for 2 of it, the stored line item has unit_price 0 (the
catalog price is never resolved) and total_price 0 ≠ 2 × 12.99, and the
operation fails with the response-model validation error rather than
ItemNotFound or ItemUnavailable (neither exists in the source). -/
theorem c3_price_counterexample :
    sampleMenuItem.id = sampleItemReq.menu_item_id ∧
    sampleMenuItem.is_available = true ∧
    sampleItemReq.quantity = 2 ∧
    (OrderService.add_order_item sampleDB "o1" sampleItemReq "it1").2.1.unit_price
      ≠ sampleMenuItem.price ∧
    (OrderService.add_order_item sampleDB "o1" sampleItemReq "it1").2.1.total_price
      ≠ (sampleItemReq.quantity : ℚ) * sampleMenuItem.price ∧
    (OrderService.add_order_item sampleDB "o1" sampleItemReq "it1").2.2
      = Except.error "ValidationError" := by
  refine ⟨rfl, rfl, rfl, ?_, ?_, rfl⟩
  · have h : (OrderService.add_order_item sampleDB "o1" sampleItemReq "it1").2.1.unit_price
        = (0 : ℚ) := rfl
    rw [h]
    norm_num [sampleMenuItem]
  · have h : (OrderService.add_order_item sampleDB "o1" sampleItemReq "it1").2.1.total_price
        = (0 : ℚ) := rfl
    rw [h]
    norm_num [sampleItemReq, sampleMenuItem]

/-- C3 (amended): add_order_item never consults the menu catalog — it stores
unit_price = 0 and total_price = 0 for every request and then fails the
response-model validation (unit_price must be positive) for every request,
raising neither ItemNotFound nor ItemUnavailable; only the (uncalled)
OrderBuilder computes total_price = quantity × unit_price, and from a
caller-supplied price, not a catalog lookup. -/
theorem c3_price_amended (db : OrdersDB) (oid : String) (req : OrderItemCreate)
    (fid : String) (items : List BuilderOrderItem) (mid : String) (q : Nat) (p : ℚ)
    (cs : List String) (si : Option String) :
    ((OrderService.add_order_item db oid req fid).2.1.unit_price = 0 ∧
     (OrderService.add_order_item db oid req fid).2.1.total_price = 0 ∧
     (OrderService.add_order_item db oid req fid).2.1.quantity = req.quantity ∧
     (OrderService.add_order_item db oid req fid).2.2 = Except.error "ValidationError" ∧
     (OrderService.add_order_item db oid req fid).1.order_items
        = db.order_items ++ [(OrderService.add_order_item db oid req fid).2.1]) ∧
    ((OrderBuilder.add_order_item items mid q p cs si).getLast?.map
        (fun i => i.total_price) = some ((q : ℚ) * p)) := by
  have hval : orderItemResponseOk
      { id := fid
        order_id := oid
        menu_item_id := req.menu_item_id
        quantity := req.quantity
        unit_price := 0
        total_price := 0
        customizations := []
        special_instructions := req.special_instructions
        status := "pending" } = false := by
    have h0 : (decide ((0 : ℚ) < 0)) = false := by decide
    simp [orderItemResponseOk]
  refine ⟨?_, ?_⟩
  · rw [OrderService.add_order_item]
    simp [hval]
  · rw [OrderBuilder.add_order_item]
    simp [List.getLast?_concat]

/-- One payment-status update on any store containing the requested id: the
row is rewritten with the mapped status, and paid_at is refreshed exactly when
that status is paid. -/
lemma paymentUpdate_found (db : BillingDB) (iid : String) (inv : Invoice)
    (h : db.find? (fun i => i.id == iid) = some inv) (s pm : String) (now : Nat) :
    BillingService.update_invoice_payment_status db iid s pm now =
      (let upd := if BillingService.status_mapping s = InvoiceStatus.paid
         then { inv with status := BillingService.status_mapping s, paid_at := some now }
         else { inv with status := BillingService.status_mapping s }
       some (db.map (fun i => if i.id == iid then upd else i), upd)) := by
  by_cases hst : BillingService.status_mapping s = InvoiceStatus.paid
  · simp [BillingService.update_invoice_payment_status,
      BillingRepository.update_invoice_payment_status, h, invoiceStatus_value_paid, hst]
  · simp [BillingService.update_invoice_payment_status,
      BillingRepository.update_invoice_payment_status, h, invoiceStatus_value_paid, hst]

/-- C4 (counterexample): the disallowed transition pending → refunded
succeeds (no InvalidTransition exists in the source), and a transition
refunded → paid sets paid_at, contradicting "only pending → paid sets
paid_at". -/
theorem c4_payment_counterexample :
    samplePendingInvoice.status = InvoiceStatus.pending ∧
    (BillingService.update_invoice_payment_status [samplePendingInvoice]
        "inv1" "refunded" "card" 9).isSome = true ∧
    (BillingService.update_invoice_payment_status [samplePendingInvoice]
        "inv1" "refunded" "card" 9).map (fun r => r.2.status.value) = some "refunded" ∧
    sampleRefundedInvoice.status = InvoiceStatus.refunded ∧
    (BillingService.update_invoice_payment_status [sampleRefundedInvoice]
        "inv3" "paid" "card" 9).map (fun r => r.2.paid_at) = some (some 9) := by
  refine ⟨rfl, rfl, rfl, rfl, rfl⟩

/-- C4 (amended): update_invoice_payment_status validates nothing — for every
stored invoice in every current status and every requested status string, the
update succeeds, the stored status becomes the mapped status (unknown strings
map to pending), and paid_at is set whenever the mapped status is paid
(whatever the previous status was) and is left untouched otherwise. -/
theorem c4_payment_amended (db : BillingDB) (iid s pm : String) (now : Nat)
    (inv : Invoice) (h : db.find? (fun i => i.id == iid) = some inv) :
    ∃ db2 inv2,
      BillingService.update_invoice_payment_status db iid s pm now = some (db2, inv2) ∧
      inv2.status = BillingService.status_mapping s ∧
      inv2.paid_at = (if BillingService.status_mapping s = InvoiceStatus.paid
                      then some now else inv.paid_at) := by
  by_cases hst : BillingService.status_mapping s = InvoiceStatus.paid
  · refine ⟨db.map (fun i => if i.id == iid then
        { inv with status := BillingService.status_mapping s, paid_at := some now } else i),
      { inv with status := BillingService.status_mapping s, paid_at := some now },
      ?_, rfl, ?_⟩
    · rw [paymentUpdate_found db iid inv h s pm now]
      dsimp only
      rw [if_pos hst]
    · rw [if_pos hst]
  · refine ⟨db.map (fun i => if i.id == iid then
        { inv with status := BillingService.status_mapping s } else i),
      { inv with status := BillingService.status_mapping s },
      ?_, rfl, ?_⟩
    · rw [paymentUpdate_found db iid inv h s pm now]
      dsimp only
      rw [if_neg hst]
    · rw [if_neg hst]

/-- C4 (witness): the amended statement on a pending invoice asked to move to
refunded: the request succeeds and paid_at stays null. -/
theorem c4_payment_witness :
    ([samplePendingInvoice].find? (fun i => i.id == "inv1") = some samplePendingInvoice) ∧
    (∃ db2 inv2,
      BillingService.update_invoice_payment_status [samplePendingInvoice]
          "inv1" "refunded" "card" 9 = some (db2, inv2) ∧
      inv2.status = BillingService.status_mapping "refunded" ∧
      inv2.paid_at = (if BillingService.status_mapping "refunded" = InvoiceStatus.paid
                      then some 9 else samplePendingInvoice.paid_at)) :=
  ⟨rfl, c4_payment_amended [samplePendingInvoice] "inv1" "refunded" "card" 9
      samplePendingInvoice rfl⟩

/-- C5 (counterexample): after an invoice created pending is paid, a second
payment attempt on it succeeds again (and even refreshes paid_at) instead of
failing with InvoiceNotPayable. -/
theorem c5_not_payable_counterexample :
    ((applyPaymentUpdates (BillingService.create_invoice [] sampleInvoiceCreate "inv9" 3).1
        "inv9" [("paid", 5)]).map (fun i => i.status.value)) = ["paid"] ∧
    (BillingService.update_invoice_payment_status
        (applyPaymentUpdates (BillingService.create_invoice [] sampleInvoiceCreate "inv9" 3).1
          "inv9" [("paid", 5)])
        "inv9" "paid" "card" 7).isSome = true ∧
    (BillingService.update_invoice_payment_status
        (applyPaymentUpdates (BillingService.create_invoice [] sampleInvoiceCreate "inv9" 3).1
          "inv9" [("paid", 5)])
        "inv9" "paid" "card" 7).map (fun r => r.2.paid_at) = some (some 7) := by
  refine ⟨rfl, rfl, rfl⟩

/-- C5 (amended): a payment-status update succeeds whenever the invoice id
exists, regardless of the invoice's current status — the source never
inspects the status, and InvoiceNotPayable does not exist in it. -/
theorem c5_not_payable_amended (db : BillingDB) (iid s pm : String) (now : Nat)
    (h : (db.find? (fun i => i.id == iid)).isSome = true) :
    (BillingService.update_invoice_payment_status db iid s pm now).isSome = true := by
  cases hfind : db.find? (fun i => i.id == iid) with
  | none => rw [hfind] at h; exact absurd h (by simp)
  | some inv =>
      rw [paymentUpdate_found db iid inv hfind s pm now]
      rfl

/-- C5 (witness): a second payment attempt against an already-paid invoice
succeeds. -/
theorem c5_not_payable_witness :
    (([samplePaidInvoice].find? (fun i => i.id == "inv2")).isSome = true) ∧
    (BillingService.update_invoice_payment_status [samplePaidInvoice]
        "inv2" "paid" "card" 10).isSome = true :=
  ⟨rfl, c5_not_payable_amended [samplePaidInvoice] "inv2" "paid" "card" 10 rfl⟩

/-- C6 (counterexample): create an invoice, pay it, then refund it — the
final invoice has status refunded with paid_at still set to the payment
timestamp, so "paid_at is non-null iff status is paid" fails. -/
theorem c6_paid_at_counterexample :
    ((applyPaymentUpdates ((BillingService.create_invoice [] sampleInvoiceCreate "inv9" 3).1)
        "inv9" [("paid", 5), ("refunded", 6)]).map
          (fun i => i.status == InvoiceStatus.paid)) = [false] ∧
    ((applyPaymentUpdates ((BillingService.create_invoice [] sampleInvoiceCreate "inv9" 3).1)
        "inv9" [("paid", 5), ("refunded", 6)]).map (fun i => i.paid_at)) = [some 5] := by
  refine ⟨rfl, rfl⟩

/-- C6 (amended): over every reachable state of an invoice (created via
create_invoice and driven by any sequence of payment-status updates), paid_at
is non-null iff some update in the history mapped to the paid status;
transitions away from paid never clear paid_at, so the invariant ties paid_at
to the history, not to the current status. -/
theorem c6_paid_at_amended (req : InvoiceCreate) (fid : String) (now : Nat)
    (reqs : List (String × Nat)) :
    (applyPaymentUpdates ((BillingService.create_invoice [] req fid now).1) fid reqs).map
        (fun i => i.paid_at.isSome)
      = [reqs.any (fun r => BillingService.status_mapping r.1 == InvoiceStatus.paid)] := by
  have hcreate : (BillingService.create_invoice [] req fid now).1
      = [(BillingService.create_invoice [] req fid now).2] := rfl
  obtain ⟨inv2, h1, h2, h3⟩ := applyPaymentUpdates_singleton fid reqs
      ((BillingService.create_invoice [] req fid now).2) rfl
  rw [hcreate, h1]
  have hnone : ((BillingService.create_invoice [] req fid now).2).paid_at = none := rfl
  simp [h3, hnone]

end RestaurantSystem
